import Mathlib

/-!
Verification of `src/_bmad/core/verification/extract-gates.py` (the BMAD
gate extractor), embedded shallowly in Lean 4.

The script parses a YAML story file, reads `verification.gates`, and emits
one `name|type|command|expected_exit` line per gate entry.  We model parsed
YAML documents as the inductive `YVal`, Python dynamic-dispatch failures
(`AttributeError`, `TypeError`) as `PyErr`, the file-system/parse step as an
abstract `ParseResult`, and the process as pure functions producing the
stdout lines, stderr lines and exit code.
-/

/-- A parsed YAML value as produced by `yaml.safe_load`: `None`, booleans,
integers, strings, sequences and mappings with string keys.  (YAML floats
are outside the fragment used by the data model of the script.) -/
inductive YVal where
  | yNull : YVal
  | yBool : Bool → YVal
  | yInt : Int → YVal
  | yStr : String → YVal
  | ySeq : List YVal → YVal
  | yMap : List (String × YVal) → YVal

/-- Python exceptions the body of `extract_gates` can raise after parsing:
`AttributeError` (calling `.get` on a non-dict) and `TypeError` (iterating a
non-iterable).  Each carries the Python type name of the offending value. -/
inductive PyErr where
  | attrError : String → PyErr
  | typeError : String → PyErr
deriving Repr, DecidableEq

/-- The Python type name of a value, as it appears in exception messages. -/
def typeName : YVal → String
  | .yNull => "NoneType"
  | .yBool _ => "bool"
  | .yInt _ => "int"
  | .yStr _ => "str"
  | .ySeq _ => "list"
  | .yMap _ => "dict"

/-- A single-quote character (written via its code point). -/
def sglQuote : String := String.singleton (Char.ofNat 39)

/-- The message carried by the exception, as `str(e)` renders it:
the quoted type name followed by `object has no attribute get`, or by
`object is not iterable`. -/
def pyErrMsg : PyErr → String
  | .attrError tn => sglQuote ++ tn ++ sglQuote ++ " object has no attribute " ++ sglQuote ++ "get" ++ sglQuote
  | .typeError tn => sglQuote ++ tn ++ sglQuote ++ " object is not iterable"

/-- Python truthiness of a parsed value (`if not data`): `None`, `False`,
`0`, `""`, `[]` and `{}` are falsy, everything else truthy. -/
def pyTruthy : YVal → Bool
  | .yNull => false
  | .yBool b => b
  | .yInt n => n != 0
  | .yStr s => s != ""
  | .ySeq xs => !xs.isEmpty
  | .yMap m => !m.isEmpty

/-- Association lookup in a parsed mapping (YAML mappings have unique keys,
so first-match lookup is dict lookup). -/
def dictFind (entries : List (String × YVal)) (key : String) : Option YVal :=
  (entries.find? (fun p => p.1 == key)).map Prod.snd

/-- Python `v.get(key, default)`: dict lookup with default on a mapping,
`AttributeError` on any other value. -/
def dictGet (v : YVal) (key : String) (dflt : YVal) : Except PyErr YVal :=
  match v with
  | .yMap entries => .ok ((dictFind entries key).getD dflt)
  | other => .error (.attrError (typeName other))

/-- Python iteration (`for x in v`): sequences yield their elements, dicts
their keys, strings their characters (as 1-character strings); `None`,
booleans and integers raise `TypeError`. -/
def pyIter (v : YVal) : Except PyErr (List YVal) :=
  match v with
  | .ySeq xs => .ok xs
  | .yMap m => .ok (m.map (fun p => .yStr p.1))
  | .yStr s => .ok (s.toList.map (fun c => .yStr (String.singleton c)))
  | other => .error (.typeError (typeName other))

mutual
/-- Python `repr` of a parsed value (escaping of special characters inside
string reprs is not modelled; no claim evaluates it on such strings). -/
def pyRepr : YVal → String
  | .yNull => "None"
  | .yBool true => "True"
  | .yBool false => "False"
  | .yInt n => toString n
  | .yStr s => sglQuote ++ s ++ sglQuote
  | .ySeq xs => "[" ++ String.intercalate ", " (pyReprList xs) ++ "]"
  | .yMap m => "\x7b" ++ String.intercalate ", " (pyReprMap m) ++ "\x7d"

/-- `repr` of each element of a sequence. -/
def pyReprList : List YVal → List String
  | [] => []
  | x :: xs => pyRepr x :: pyReprList xs

/-- `repr` of each `key: value` pair of a mapping. -/
def pyReprMap : List (String × YVal) → List String
  | [] => []
  | (k, v) :: rest => (sglQuote ++ k ++ sglQuote ++ ": " ++ pyRepr v) :: pyReprMap rest
end

/-- Python `str(v)`, as used by f-string interpolation: strings unchanged,
other values via `repr`-style rendering (`None`, `True`, decimal ints). -/
def pyStr : YVal → String
  | .yStr s => s
  | v => pyRepr v

/-- The pipe-joined line `f"{name}|{gate_type}|{command}|{expected_exit}"`
on the already-stringified fields. -/
def format4 (name gateType command expectedExit : String) : String :=
  name ++ "|" ++ gateType ++ "|" ++ command ++ "|" ++ expectedExit

/-- The body of the `for gate in gates` loop: read the four fields with
their defaults (`Unknown`, `command`, the empty string, `0`) and format the line.
Raises `AttributeError` when `gate` is not a mapping. -/
def processGate (gate : YVal) : Except PyErr String := do
  let name ← dictGet gate "name" (.yStr "Unknown")
  let gateType ← dictGet gate "type" (.yStr "command")
  let command ← dictGet gate "command" (.yStr "")
  let expectedExit ← dictGet gate "expected_exit" (.yInt 0)
  pure (format4 (pyStr name) (pyStr gateType) (pyStr command) (pyStr expectedExit))

/-- The accumulation loop over the gate entries: on the first raising entry
the whole loop aborts and the partial `results` list is discarded. -/
def processGates : List YVal → Except PyErr (List String)
  | [] => .ok []
  | g :: rest => do
    let line ← processGate g
    let lines ← processGates rest
    pure (line :: lines)

/-- The `try`-block of `extract_gates` after a successful parse:
the emptiness check, then the `verification` lookup, then the `gates`
lookup, then the loop over `gates`. -/
def processDoc (data : YVal) : Except PyErr (List String) :=
  if pyTruthy data = false then .ok []
  else
    match dictGet data "verification" (.yMap []) with
    | .error e => .error e
    | .ok verification =>
      match dictGet verification "gates" (.ySeq []) with
      | .error e => .error e
      | .ok gates =>
        match pyIter gates with
        | .error e => .error e
        | .ok items => processGates items

/-- Outcome of opening and parsing the story file, abstracting the file
system: a parsed document, `FileNotFoundError`, or `yaml.YAMLError` with
its message. -/
inductive ParseResult where
  | ok : YVal → ParseResult
  | fileNotFound : ParseResult
  | yamlError : String → ParseResult

/-- What `extract_gates` produces: the returned list of formatted gate
lines and the diagnostic lines it printed to stderr. -/
structure ExtractOut where
  gates : List String
  stderrMsgs : List String
deriving Repr, DecidableEq

/-- The whole of `extract_gates`: every failure — `FileNotFoundError`,
`yaml.YAMLError`, or any other exception from the body — is caught,
reported as one `Error:` stderr line, and degraded to the empty list. -/
def extract_gates (storyFile : String) (parsed : ParseResult) : ExtractOut :=
  match parsed with
  | .fileNotFound => ⟨[], ["Error: File not found: " ++ storyFile]⟩
  | .yamlError e => ⟨[], ["Error: Invalid YAML: " ++ e]⟩
  | .ok data =>
    match processDoc data with
    | .ok results => ⟨results, []⟩
    | .error e => ⟨[], ["Error: " ++ pyErrMsg e]⟩

/-- Observable outcome of one process run: stdout lines, stderr lines and
the exit status. -/
structure ProcOut where
  stdoutLines : List String
  stderrLines : List String
  exitCode : Nat
deriving Repr, DecidableEq

/-- `main()`: `argv` is the full `sys.argv` (program name first); `fsys`
models the file system as the parse outcome for each path.  With fewer than
two entries print the usage line and exit 1; otherwise run the extractor on
`sys.argv[1]`, print each gate line to stdout, and exit 0. -/
def mainFn (argv : List String) (fsys : String → ParseResult) : ProcOut :=
  match argv with
  | _ :: storyFile :: _ =>
    let out := extract_gates storyFile (fsys storyFile)
    ⟨out.gates, out.stderrMsgs, 0⟩
  | _ => ⟨[], ["Usage: python extract-gates.py <story-file>"], 1⟩

/-- The line produced for a gate entry that is a mapping with entry list
`m`: each of the four fields looked up in `m` with its default. -/
def mapLine (m : List (String × YVal)) : String :=
  format4 (pyStr ((dictFind m "name").getD (.yStr "Unknown")))
    (pyStr ((dictFind m "type").getD (.yStr "command")))
    (pyStr ((dictFind m "command").getD (.yStr "")))
    (pyStr ((dictFind m "expected_exit").getD (.yInt 0)))

/-! ### Helper lemmas -/

/-- A gate entry that is a mapping never raises: the loop body returns the
line with the four defaulted fields. -/
theorem processGate_yMap (m : List (String × YVal)) :
    processGate (.yMap m) = .ok (mapLine m) := rfl

/-- The loop over a list of mapping entries returns one line per entry, in
order. -/
theorem processGates_yMaps (gs : List (List (String × YVal))) :
    processGates (gs.map YVal.yMap) = .ok (gs.map mapLine) := by
  induction gs with
  | nil => rfl
  | cons m gs ih =>
    have step : processGates (YVal.yMap m :: gs.map YVal.yMap)
        = Except.bind (processGates (gs.map YVal.yMap))
            (fun lines => Except.ok (mapLine m :: lines)) := rfl
    rw [List.map_cons, List.map_cons, step, ih]
    rfl

/-- A mapping in which some key is found is nonempty, hence truthy. -/
theorem pyTruthy_of_dictFind (entries : List (String × YVal)) (key : String)
    (v : YVal) (h : dictFind entries key = some v) :
    pyTruthy (.yMap entries) = true := by
  cases entries with
  | nil => simp [dictFind] at h
  | cons p rest => simp [pyTruthy]

/-- `.get` on any non-mapping value raises `AttributeError`. -/
theorem dictGet_nonmap (v : YVal) (key : String) (dflt : YVal)
    (h : ∀ m, v ≠ YVal.yMap m) :
    dictGet v key dflt = .error (.attrError (typeName v)) := by
  cases v with
  | yMap m => exact absurd rfl (h m)
  | yNull => rfl
  | yBool b => rfl
  | yInt n => rfl
  | yStr s => rfl
  | ySeq xs => rfl


/-- Splitting at the first separator: if neither prefix contains the pipe
character, a pipe-joined pair determines both halves. -/
theorem pipe_split (l₁ : List Char) : ∀ (m₁ l₂ m₂ : List Char),
    '|' ∉ l₁ → '|' ∉ m₁ → l₁ ++ '|' :: l₂ = m₁ ++ '|' :: m₂ →
    l₁ = m₁ ∧ l₂ = m₂ := by
  induction l₁ with
  | nil =>
    intro m₁ l₂ m₂ _ h₂ h
    cases m₁ with
    | nil => simpa using h
    | cons c m₁ =>
      rw [List.cons_append, List.nil_append] at h
      injection h with hc ht
      exact absurd (hc ▸ List.mem_cons_self '|' m₁) h₂
  | cons c l₁ ih =>
    intro m₁ l₂ m₂ h₁ h₂ h
    cases m₁ with
    | nil =>
      rw [List.cons_append, List.nil_append] at h
      injection h with hc ht
      exact absurd (hc.symm ▸ List.mem_cons_self '|' l₁) h₁
    | cons c2 m₁ =>
      rw [List.cons_append, List.cons_append] at h
      injection h with hc ht
      have hrec := ih m₁ l₂ m₂
        (fun hm => h₁ (List.mem_cons_of_mem c hm))
        (fun hm => h₂ (List.mem_cons_of_mem c2 hm)) ht
      exact ⟨by rw [hc, hrec.1], hrec.2⟩

/-- The character list underlying a formatted line. -/
theorem format4_data (a b c d : String) :
    (format4 a b c d).data
      = a.data ++ '|' :: (b.data ++ '|' :: (c.data ++ '|' :: d.data)) := by
  have hp : "|".data = ['|'] := rfl
  simp [format4, String.data_append, hp]

/-! ### Claims -/

/-- C1: for every document whose `verification.gates` value is a sequence
of N mapping entries, the processing step of `extract_gates` returns exactly N
records, one per source entry, in source order — no sorting, deduplication
or filtering. -/
theorem extract_preserves_gate_list (entries ventries : List (String × YVal))
    (gs : List (List (String × YVal)))
    (hv : dictFind entries "verification" = some (.yMap ventries))
    (hg : dictFind ventries "gates" = some (.ySeq (gs.map YVal.yMap))) :
    processDoc (.yMap entries) = .ok (gs.map mapLine)
      ∧ (gs.map mapLine).length = gs.length := by
  have ht := pyTruthy_of_dictFind entries "verification" _ hv
  refine ⟨?_, by simp⟩
  simp only [processDoc, ht, Bool.true_eq_false, if_false, dictGet, hv,
    Option.getD_some, hg, pyIter]
  exact processGates_yMaps gs

theorem extract_preserves_gate_list_witness :
    processDoc (.yMap [("verification", .yMap [("gates",
        .ySeq [.yMap [("name", YVal.yStr "Build")], .yMap [("name", YVal.yStr "Lint")]])])])
      = .ok ["Build|command||0", "Lint|command||0"] := by
  have h := (extract_preserves_gate_list
    [("verification", .yMap [("gates",
        .ySeq [.yMap [("name", YVal.yStr "Build")], .yMap [("name", YVal.yStr "Lint")]])])]
    [("gates", .ySeq [.yMap [("name", YVal.yStr "Build")], .yMap [("name", YVal.yStr "Lint")]])]
    [[("name", YVal.yStr "Build")], [("name", YVal.yStr "Lint")]] rfl rfl).1
  exact h.trans (by rfl)

/-- C2: for every gate entry that is a mapping, the emitted line is the
four fields `name`, `type`, `command`, `expected_exit` joined by `|`, each
missing field replaced by its default (`Unknown`, `command`, `""`, `0`);
in particular `{name: "Build"}` yields `Build|command||0` and
`{name: "Lint", type: "script", command: "run-lint.sh", expected_exit: 2}`
yields `Lint|script|run-lint.sh|2`. -/
theorem gate_line_fields_and_defaults :
    (∀ m : List (String × YVal), processGate (.yMap m)
        = .ok (format4 (pyStr ((dictFind m "name").getD (.yStr "Unknown")))
            (pyStr ((dictFind m "type").getD (.yStr "command")))
            (pyStr ((dictFind m "command").getD (.yStr "")))
            (pyStr ((dictFind m "expected_exit").getD (.yInt 0)))))
    ∧ processGate (.yMap [("name", .yStr "Build")]) = .ok "Build|command||0"
    ∧ processGate (.yMap [("name", .yStr "Lint"), ("type", .yStr "script"),
        ("command", .yStr "run-lint.sh"), ("expected_exit", .yInt 2)])
      = .ok "Lint|script|run-lint.sh|2" :=
  ⟨fun m => processGate_yMap m, rfl, rfl⟩

/-- C3: whenever a file argument is supplied the process exits with status
0, whatever the file system returned — and every extraction-time failure
(file not found, invalid YAML, or any exception in the body) is contained:
it degrades to an empty returned sequence plus exactly one diagnostic
message, rather than propagating. -/
theorem supplied_argument_exits_zero (argv : List String)
    (fsys : String → ParseResult) (f msg : String) (d : YVal) (e : PyErr)
    (h2 : 2 ≤ argv.length) (herr : processDoc d = .error e) :
    (mainFn argv fsys).exitCode = 0
    ∧ extract_gates f .fileNotFound = ⟨[], ["Error: File not found: " ++ f]⟩
    ∧ extract_gates f (.yamlError msg) = ⟨[], ["Error: Invalid YAML: " ++ msg]⟩
    ∧ extract_gates f (.ok d) = ⟨[], ["Error: " ++ pyErrMsg e]⟩ := by
  refine ⟨?_, rfl, rfl, ?_⟩
  · cases argv with
    | nil => simp at h2
    | cons a t =>
      cases t with
      | nil => simp at h2
      | cons b r => rfl
  · simp [extract_gates, herr]

theorem supplied_argument_exits_zero_witness :
    (mainFn ["prog", "story.yaml"] (fun _ => .fileNotFound)).exitCode = 0
    ∧ extract_gates "story.yaml" .fileNotFound
      = ⟨[], ["Error: File not found: story.yaml"]⟩
    ∧ extract_gates "story.yaml" (.ok (.yStr "x"))
      = ⟨[], ["Error: " ++ pyErrMsg (.attrError "str")]⟩ := by
  have h := supplied_argument_exits_zero ["prog", "story.yaml"]
    (fun _ => .fileNotFound) "story.yaml" "m" (.yStr "x") (.attrError "str")
    (by decide) rfl
  exact ⟨h.1, h.2.1, h.2.2.2⟩

/-- C4 counterexample: with `verification` present but bound to the string
`"x"`, extraction does not behave as if the section were an empty mapping:
it emits an `AttributeError` diagnostic through the catch-all handler,
whereas silent defaulting would produce no stderr output at all. -/
theorem wrong_type_not_defaulted_counterexample :
    extract_gates "story.yaml" (.ok (.yMap [("verification", .yStr "x")]))
      = ⟨[], ["Error: " ++ pyErrMsg (.attrError "str")]⟩
    ∧ extract_gates "story.yaml" (.ok (.yMap [("verification", .yStr "x")]))
      ≠ ⟨[], []⟩ := by
  exact ⟨rfl, by decide⟩

/-- C4 amended: when `verification` is present with a non-mapping value,
or `gates` is present with a non-iterable value, extraction still returns
an empty sequence, but by error recovery — the failure reaches the
catch-all handler and one `Error:` diagnostic is printed — not by
defaulting. -/
theorem wrong_type_sections_error_recovery (f : String)
    (entries entries₂ ventries : List (String × YVal)) (v w : YVal) (e : PyErr)
    (hv : dictFind entries "verification" = some v) (hnm : ∀ m, v ≠ YVal.yMap m)
    (hv2 : dictFind entries₂ "verification" = some (.yMap ventries))
    (hw : dictFind ventries "gates" = some w) (hni : pyIter w = .error e) :
    extract_gates f (.ok (.yMap entries))
      = ⟨[], ["Error: " ++ pyErrMsg (.attrError (typeName v))]⟩
    ∧ extract_gates f (.ok (.yMap entries₂))
      = ⟨[], ["Error: " ++ pyErrMsg e]⟩ := by
  constructor
  · have ht := pyTruthy_of_dictFind entries "verification" v hv
    have hbad := dictGet_nonmap v "gates" (.ySeq []) hnm
    simp [extract_gates, processDoc, ht, dictGet, hv, hbad]
  · have ht := pyTruthy_of_dictFind entries₂ "verification" _ hv2
    simp [extract_gates, processDoc, ht, dictGet, hv2, hw, hni]

theorem wrong_type_sections_error_recovery_witness :
    extract_gates "story.yaml" (.ok (.yMap [("verification", .yStr "x")]))
      = ⟨[], ["Error: " ++ pyErrMsg (.attrError "str")]⟩
    ∧ extract_gates "story.yaml" (.ok (.yMap [("verification", .yMap [("gates", .yInt 5)])]))
      = ⟨[], ["Error: " ++ pyErrMsg (.typeError "int")]⟩ :=
  wrong_type_sections_error_recovery "story.yaml"
    [("verification", .yStr "x")] [("verification", .yMap [("gates", .yInt 5)])]
    [("gates", .yInt 5)] (.yStr "x") (.yInt 5) (.typeError "int")
    rfl (fun m h => by injection h) rfl rfl rfl

/-- C5: when the path does not resolve to a file, the run prints
`Error: File not found: <path>` to stderr, nothing to stdout, and exits
with status 0. -/
theorem file_not_found_behavior (prog path : String) (rest : List String)
    (fsys : String → ParseResult) (h : fsys path = .fileNotFound) :
    mainFn (prog :: path :: rest) fsys
      = ⟨[], ["Error: File not found: " ++ path], 0⟩ := by
  simp [mainFn, h, extract_gates]

theorem file_not_found_behavior_witness :
    mainFn ["prog", "missing.yaml"] (fun _ => .fileNotFound)
      = ⟨[], ["Error: File not found: missing.yaml"], 0⟩ :=
  file_not_found_behavior "prog" "missing.yaml" [] (fun _ => .fileNotFound) rfl

/-- C6: with no argument after the program name, the run prints the usage
line to stderr, nothing to stdout, and exits with status 1. -/
theorem no_arguments_usage_exit_one (prog : String) (fsys : String → ParseResult) :
    mainFn [prog] fsys = ⟨[], ["Usage: python extract-gates.py <story-file>"], 1⟩ :=
  rfl

/-- C7: a document that is empty or parses to a null (falsy) value yields
an empty sequence with no diagnostic — a normal, non-error result. -/
theorem empty_or_null_document_empty_result (f : String) (data : YVal)
    (h : pyTruthy data = false) :
    extract_gates f (.ok data) = ⟨[], []⟩ := by
  simp [extract_gates, processDoc, h]

theorem empty_or_null_document_empty_result_witness :
    extract_gates "story.yaml" (.ok .yNull) = ⟨[], []⟩ :=
  empty_or_null_document_empty_result "story.yaml" .yNull rfl

/-- C8: the pipe-joined line determines the four fields whenever none of
their string representations contains the `|` character: distinct tuples
give distinct lines. -/
theorem format_injective_without_pipe (a b c d a' b' c' d' : String)
    (ha : '|' ∉ a.data) (hb : '|' ∉ b.data) (hc : '|' ∉ c.data)
    (_hd : '|' ∉ d.data) (ha' : '|' ∉ a'.data) (hb' : '|' ∉ b'.data)
    (hc' : '|' ∉ c'.data) (_hd' : '|' ∉ d'.data)
    (h : format4 a b c d = format4 a' b' c' d') :
    a = a' ∧ b = b' ∧ c = c' ∧ d = d' := by
  have hdata := congrArg String.data h
  rw [format4_data, format4_data] at hdata
  obtain ⟨h1, hrest⟩ := pipe_split a.data a'.data _ _ ha ha' hdata
  obtain ⟨h2, hrest2⟩ := pipe_split b.data b'.data _ _ hb hb' hrest
  obtain ⟨h3, h4⟩ := pipe_split c.data c'.data _ _ hc hc' hrest2
  exact ⟨String.ext h1, String.ext h2, String.ext h3, String.ext h4⟩

theorem format_injective_without_pipe_witness :
    "Build" = "Build" ∧ "command" = "command" ∧ "" = "" ∧ "0" = "0" :=
  format_injective_without_pipe "Build" "command" "" "0" "Build" "command" "" "0"
    (by decide) (by decide) (by decide) (by decide)
    (by decide) (by decide) (by decide) (by decide) rfl

/-- C9: extraction is deterministic — two runs on the same parsed document
produce the same gate lines and the same diagnostics. -/
theorem extract_deterministic (f : String) (p₁ p₂ : ParseResult) (h : p₁ = p₂) :
    extract_gates f p₁ = extract_gates f p₂ := by
  rw [h]

theorem extract_deterministic_witness :
    extract_gates "story.yaml" (.ok .yNull) = extract_gates "story.yaml" (.ok .yNull) :=
  extract_deterministic "story.yaml" (.ok .yNull) (.ok .yNull) rfl

/-- C10: extraction is all-or-nothing — an entry whose processing raises
makes the whole loop abort (no prefix of already-built lines survives at
any position), and the caught error yields an empty result with one
diagnostic. -/
theorem loop_error_discards_partial_results (f : String) (d : YVal)
    (e e' : PyErr) (pre : List (List (String × YVal))) (bad : YVal)
    (rest : List YVal) (h : processDoc d = .error e)
    (hbad : processGate bad = .error e') :
    extract_gates f (.ok d) = ⟨[], ["Error: " ++ pyErrMsg e]⟩
    ∧ processGates (pre.map YVal.yMap ++ bad :: rest) = .error e' := by
  constructor
  · simp [extract_gates, h]
  · induction pre with
    | nil =>
      have step : processGates (bad :: rest)
          = Except.bind (processGate bad)
              (fun line => Except.bind (processGates rest)
                (fun lines => Except.ok (line :: lines))) := rfl
      rw [List.map_nil, List.nil_append, step, hbad]
      rfl
    | cons m pre ih =>
      have step : processGates (YVal.yMap m :: (pre.map YVal.yMap ++ bad :: rest))
          = Except.bind (processGates (pre.map YVal.yMap ++ bad :: rest))
              (fun lines => Except.ok (mapLine m :: lines)) := rfl
      rw [List.map_cons, List.cons_append, step, ih]
      rfl

theorem loop_error_discards_partial_results_witness :
    extract_gates "story.yaml" (.ok (.yMap [("verification", .yMap [("gates",
        .ySeq [.yMap [("name", YVal.yStr "Build")], .yInt 7])])]))
      = ⟨[], ["Error: " ++ pyErrMsg (.attrError "int")]⟩
    ∧ processGates [.yMap [("name", YVal.yStr "Build")], .yInt 7]
      = .error (.attrError "int") := by
  have h := loop_error_discards_partial_results "story.yaml"
    (.yMap [("verification", .yMap [("gates",
        .ySeq [.yMap [("name", YVal.yStr "Build")], .yInt 7])])])
    (.attrError "int") (.attrError "int")
    [[("name", YVal.yStr "Build")]] (.yInt 7) [] rfl rfl
  exact ⟨h.1, h.2⟩
